import Mathlib

/-!
Shallow embedding of the parking-search API route
(`src/pages/api/parking/search.ts` together with the query schema in
`src/lib/schemas.ts`) of the TaiwanParkingRules repository.

Modelling conventions:
* JS numbers holding space counts, space-type codes and timestamps are
  modelled as `Int` (milliseconds for timestamps, as in `Date.now()`);
  coordinates and distances are modelled as real numbers, since the source
  computes with `Math.sin`/`Math.cos`/`Math.atan2`/`Math.sqrt`.
* The process-wide mutable module state (`accessToken`, `expiredAt`,
  `loadedCities`, `carParkData`, `carParkCache`) is collected in a
  `ServerState` record that every stateful function takes and returns.
* Each outbound network interaction is modelled by an input describing the
  response the network would deliver: a queue of token-endpoint responses
  (consumed one per credential exchange; an empty queue models a network
  failure), an optional availability feed (`none` models a failed fetch or
  unparseable body), and a metadata response
  (`none` = fetch/body failure before `.CarParks` is read,
  `some none` = body without a usable `CarParks` array, so the `for…of`
  throws after `loadedCities.add`, `some (some l)` = the record list).
* JS `Map` objects are modelled as association lists with `Map.set` /
  `Map.get` semantics; `Date.now()` is modelled as a single `now` value per
  request.
* Exceptions are modelled with `Except String`; a function that throws
  returns `.error` together with the state as mutated up to the throw.
-/

namespace ParkingSearch

/-- JS truthiness of a `string | undefined` value: `undefined` and the
empty string are falsy. -/
def jsTruthyStr : Option String → Bool
  | none => false
  | some s => decide (s ≠ "")

/-- JS `a || b` for `a : string | undefined`: falls back to `b` when `a` is
`undefined` or the empty string. -/
def jsOrS (a : Option String) (b : String) : String :=
  match a with
  | none => b
  | some s => if s = "" then b else s

/-- `Map.get` on an association list. -/
def assocGet {κ β : Type} [DecidableEq κ] (l : List (κ × β)) (k : κ) : Option β :=
  match l with
  | [] => none
  | (k', v) :: rest => if k = k' then some v else assocGet rest k

/-- `Map.set` on an association list: replace the existing binding in
place, otherwise append. -/
def assocSet {κ β : Type} [DecidableEq κ] (l : List (κ × β)) (k : κ) (v : β) : List (κ × β) :=
  match l with
  | [] => [(k, v)]
  | (k', v') :: rest => if k = k' then (k, v) :: rest else (k', v') :: assocSet rest k v

/-! ### Enums from `src/lib/schemas.ts` -/

/-- The `City` enum of `src/lib/schemas.ts` (12 supported cities/counties). -/
inductive City where
  | Taipei | Taoyuan | Taichung | Tainan | Kaohsiung | Keelung
  | ChanghuaCounty | YunlinCounty | PingtungCounty | YilanCounty
  | HualienCounty | KinmenCounty
deriving DecidableEq

/-- The string value of each `City` enum member. -/
def City.toKey : City → String
  | .Taipei => "Taipei"
  | .Taoyuan => "Taoyuan"
  | .Taichung => "Taichung"
  | .Tainan => "Tainan"
  | .Kaohsiung => "Kaohsiung"
  | .Keelung => "Keelung"
  | .ChanghuaCounty => "ChanghuaCounty"
  | .YunlinCounty => "YunlinCounty"
  | .PingtungCounty => "PingtungCounty"
  | .YilanCounty => "YilanCounty"
  | .HualienCounty => "HualienCounty"
  | .KinmenCounty => "KinmenCounty"

/-- `z.nativeEnum(City)`: a string parses exactly when it is one of the 12
enum values. -/
def City.parse (s : String) : Option City :=
  if s = "Taipei" then some .Taipei
  else if s = "Taoyuan" then some .Taoyuan
  else if s = "Taichung" then some .Taichung
  else if s = "Tainan" then some .Tainan
  else if s = "Kaohsiung" then some .Kaohsiung
  else if s = "Keelung" then some .Keelung
  else if s = "ChanghuaCounty" then some .ChanghuaCounty
  else if s = "YunlinCounty" then some .YunlinCounty
  else if s = "PingtungCounty" then some .PingtungCounty
  else if s = "YilanCounty" then some .YilanCounty
  else if s = "HualienCounty" then some .HualienCounty
  else if s = "KinmenCounty" then some .KinmenCounty
  else none

/-- The `ParkingType` enum of `src/lib/schemas.ts`. -/
inductive ParkingType where
  | Car | Scooter | Heavy
deriving DecidableEq

/-- `z.nativeEnum(ParkingType)`. -/
def ParkingType.parse (s : String) : Option ParkingType :=
  if s = "Car" then some .Car
  else if s = "Scooter" then some .Scooter
  else if s = "Heavy" then some .Heavy
  else none

/-- The `ParkingAvailability` enum of `src/lib/schemas.ts`. -/
inductive ParkingAvailability where
  | Available | Many | Few | Any
deriving DecidableEq

/-- `z.nativeEnum(ParkingAvailability)`. -/
def ParkingAvailability.parse (s : String) : Option ParkingAvailability :=
  if s = "Available" then some .Available
  else if s = "Many" then some .Many
  else if s = "Few" then some .Few
  else if s = "Any" then some .Any
  else none

/-! ### Data shapes -/

/-- One entry of the `Availabilities` array of an availability-feed lot. -/
structure SpaceAvail where
  SpaceType : Int
  NumberOfSpaces : Int
  AvailableSpaces : Int
deriving DecidableEq

/-- One lot of the per-city availability snapshot (`carParkCache` values),
already mapped into the internal shape. -/
structure AvailLot where
  CarParkID : String
  name_zh : String
  name_en : String
  Availabilities : List SpaceAvail
deriving DecidableEq

/-- A per-city availability snapshot stored in `carParkCache`. -/
structure Snapshot where
  expiredAt : Int
  values : List AvailLot
deriving DecidableEq

/-- A raw record of the metadata feed (`CarParks` array element). Fields
the code reads through a guard (`||` or optional chaining) are `Option`;
`CarParkName`/`CarParkPosition` being absent makes the population loop
throw a `TypeError`. -/
structure RawCarPark where
  CarParkID : String
  CarParkName : Option (String × String)
  Telephone : Option String
  EmergencyPhone : Option String
  Description : Option String
  CarParkPosition : Option (ℝ × ℝ)
  Address : Option String
  ImageURLs : Option (List String)

/-- A stored metadata cache entry (`carParkData` values). `imageURL` is
`Option` because the source stores `(carPark.ImageURLs || [])[0]`, which is
`undefined` when there is no image. -/
structure MetaEntry where
  name_zh : String
  name_en : String
  telephone : String
  location : ℝ × ℝ
  description : String
  address : String
  imageURL : Option String

/-- The JSON body of the token endpoint; an empty `access_token` models a
missing or falsy token field. -/
structure TokenResponse where
  access_token : String
  expires_in : Int
deriving DecidableEq

/-- The process-wide mutable module state of `search.ts`. -/
structure ServerState where
  expiredAt : Int
  accessToken : Option String
  loadedCities : List City
  carParkData : List (String × MetaEntry)
  carParkCache : List (Option String × Snapshot)

/-! ### Token Manager (`getAccessToken`, lines 35–62) -/

/-- `getAccessToken`. Returns the token (or the thrown message), the state
after the call, and the remaining queue of token-endpoint responses; a
credential exchange consumes exactly one queue element. -/
def getAccessToken (st : ServerState) (now : Int) (q : List TokenResponse) :
    Except String String × ServerState × List TokenResponse :=
  if jsTruthyStr st.accessToken ∧ now < st.expiredAt then
    (.ok (st.accessToken.getD ""), st, q)
  else
    match q with
    | [] => (.error "fetch failed", st, [])
    | r :: rest =>
      if r.access_token = "" then
        (.error "Failed to get access token from TDX", st, rest)
      else
        (.ok r.access_token,
          { st with
            expiredAt := now + r.expires_in * 1000 - 60000,
            accessToken := some r.access_token },
          rest)

/-! ### Metadata Loader (`loadMockCarParkData`, lines 65–101) -/

/-- The metadata cache entry built for one well-formed raw record (the
object literal at lines 82–95). -/
def mkMetaEntry (cp : RawCarPark) (nm : String × String) (pos : ℝ × ℝ) : MetaEntry :=
  { name_zh := nm.1
    name_en := nm.2
    telephone := jsOrS cp.Telephone (jsOrS cp.EmergencyPhone "")
    location := pos
    description := jsOrS cp.Description ""
    address := jsOrS cp.Address ""
    imageURL := (cp.ImageURLs.getD []).head? }

/-- The `for…of` population loop of `loadMockCarParkData`: records are
stored in order; a record whose `CarParkName` or `CarParkPosition` is
absent throws, keeping the entries stored so far (`false` = threw). -/
def populateCarParks (city : City) (items : List RawCarPark)
    (acc : List (String × MetaEntry)) : List (String × MetaEntry) × Bool :=
  match items with
  | [] => (acc, true)
  | cp :: rest =>
    match cp.CarParkName, cp.CarParkPosition with
    | some nm, some pos =>
      populateCarParks city rest
        (assocSet acc (City.toKey city ++ "-" ++ cp.CarParkID) (mkMetaEntry cp nm pos))
    | _, _ => (acc, false)

/-- `loadMockCarParkData`. `metaResp` describes the metadata fetch:
`none` = the fetch or body parse throws (before `loadedCities.add`),
`some none` = the body has no usable `CarParks` array (the `for…of` throws
after `loadedCities.add`), `some (some items)` = the record list. -/
def loadMockCarParkData (st : ServerState) (now : Int) (q : List TokenResponse)
    (metaResp : Option (Option (List RawCarPark))) (city : City) :
    Except String Unit × ServerState × List TokenResponse :=
  if city ∈ st.loadedCities then (.ok (), st, q)
  else
    match getAccessToken st now q with
    | (.error e, st1, q1) => (.error e, st1, q1)
    | (.ok _, st1, q1) =>
      match metaResp with
      | none => (.error "fetch failed", st1, q1)
      | some none =>
        (.error "data is not iterable",
          { st1 with loadedCities := city :: st1.loadedCities }, q1)
      | some (some items) =>
        match populateCarParks city items st1.carParkData with
        | (d, true) =>
          (.ok (), { st1 with loadedCities := city :: st1.loadedCities, carParkData := d }, q1)
        | (d, false) =>
          (.error "TypeError",
            { st1 with loadedCities := city :: st1.loadedCities, carParkData := d }, q1)

/-- `getMockCarParkData(city, id)`: a pure cache read keyed by
`city + "-" + id`. -/
def getMockCarParkData (meta : List (String × MetaEntry)) (city : City) (id : String) :
    Option MetaEntry :=
  assocGet meta (City.toKey city ++ "-" ++ id)

/-! ### Availability Cache (`getAvailableCarParks`, lines 119–155) -/

/-- The cache-miss path of `getAvailableCarParks` (lines 127–154): token,
availability fetch, wholesale replacement of the per-city entry with expiry
`now + 60000` ms, returning the freshly stored lot list. -/
def getAvailableCarParksFetch (st : ServerState) (now : Int) (q : List TokenResponse)
    (availResp : Option (List AvailLot)) (city : Option String) :
    Except String (List AvailLot) × ServerState × List TokenResponse × Bool :=
  match getAccessToken st now q with
  | (.error e, st1, q1) => (.error e, st1, q1, false)
  | (.ok _, st1, q1) =>
    match availResp with
    | none => (.error "fetch failed", st1, q1, true)
    | some feed =>
      (.ok feed,
        { st1 with
          carParkCache :=
            assocSet st1.carParkCache city { expiredAt := now + 60000, values := feed } },
        q1, true)

/-- `getAvailableCarParks`. The cache key is the raw `city` query value
(`undefined` is a possible key, since the handler passes the unvalidated
query string). The final `Bool` records whether the availability feed was
fetched over the network. -/
def getAvailableCarParks (st : ServerState) (now : Int) (q : List TokenResponse)
    (availResp : Option (List AvailLot)) (city : Option String) :
    Except String (List AvailLot) × ServerState × List TokenResponse × Bool :=
  match assocGet st.carParkCache city with
  | some cache =>
    if now < cache.expiredAt then
      (.ok cache.values, st, q, false)
    else
      getAvailableCarParksFetch st now q availResp city
  | none => getAvailableCarParksFetch st now q availResp city

/-! ### Distance Calculator (`calculateDistance`, lines 8–18) -/

/-- JS `Math.atan2(y, x)` on real inputs (signed zeros and NaN are outside
the model). -/
noncomputable def atan2 (y x : ℝ) : ℝ :=
  if 0 < x then Real.arctan (y / x)
  else if x < 0 ∧ 0 ≤ y then Real.arctan (y / x) + Real.pi
  else if x < 0 ∧ y < 0 then Real.arctan (y / x) - Real.pi
  else if x = 0 ∧ 0 < y then Real.pi / 2
  else if x = 0 ∧ y < 0 then -(Real.pi / 2)
  else 0

/-- The intermediate value `a` of `calculateDistance` (lines 10–15):
`sin²(dLat/2) + cos(lat1·π/180)·cos(lat2·π/180)·sin²(dLon/2)`. -/
noncomputable def haversineA (lat1 lon1 lat2 lon2 : ℝ) : ℝ :=
  Real.sin ((lat2 - lat1) * Real.pi / 180 / 2) * Real.sin ((lat2 - lat1) * Real.pi / 180 / 2) +
    Real.cos (lat1 * Real.pi / 180) * Real.cos (lat2 * Real.pi / 180) *
      (Real.sin ((lon2 - lon1) * Real.pi / 180 / 2) * Real.sin ((lon2 - lon1) * Real.pi / 180 / 2))

/-- `calculateDistance(lat1, lon1, lat2, lon2)`: haversine distance in
kilometres with Earth radius 6371 km, `R * 2 * atan2(√a, √(1-a))`. -/
noncomputable def calculateDistance (lat1 lon1 lat2 lon2 : ℝ) : ℝ :=
  6371 * (2 * atan2 (Real.sqrt (haversineA lat1 lon1 lat2 lon2))
    (Real.sqrt (1 - haversineA lat1 lon1 lat2 lon2)))

/-! ### Query validation (`ParkingSearchSchema.parse`, schemas.ts lines 31–42) -/

/-- A successfully validated search query. -/
structure ParsedQuery where
  city : City
  parkingType : ParkingType
  availability : ParkingAvailability
  location : Option (ℝ × ℝ)

/-- `z.nativeEnum(ParkingType).default(ParkingType.Car)`: the default
applies exactly when the input is `undefined`. -/
def parsePT : Option String → Option ParkingType
  | none => some .Car
  | some s => ParkingType.parse s

/-- `z.nativeEnum(ParkingAvailability).default(ParkingAvailability.Available)`. -/
def parseAV : Option String → Option ParkingAvailability
  | none => some .Available
  | some s => ParkingAvailability.parse s

/-- `LocationSchema.optional()`: an absent location is valid; a present one
must have numeric (non-NaN, modelled by `some`) members with
`lat ∈ [-90, 90]` and `lon ∈ [-180, 180]`. -/
noncomputable def parseLocation : Option (Option ℝ × Option ℝ) → Option (Option (ℝ × ℝ))
  | none => some none
  | some (some la, some lo) =>
    if -90 ≤ la ∧ la ≤ 90 ∧ -180 ≤ lo ∧ lo ≤ 180 then some (some (la, lo)) else none
  | some _ => none

/-- `ParkingSearchSchema.parse` applied to the object the handler builds at
lines 169–177; a failure models the thrown `ZodError`. -/
noncomputable def parseQuery (cityQ parkingTypeQ availabilityQ : Option String)
    (locQ : Option (Option ℝ × Option ℝ)) : Except String ParsedQuery :=
  match cityQ.bind City.parse, parsePT parkingTypeQ, parseAV availabilityQ,
      parseLocation locQ with
  | some c, some p, some a, some l => .ok ⟨c, p, a, l⟩
  | _, _, _, _ => .error "ValidationError"

/-- The location argument the handler builds at lines 173–176:
`req.query.latitude && req.query.longitude ? {latitude: parseFloat(..), longitude: parseFloat(..)} : undefined`.
`pf` models `parseFloat` (`none` = NaN). -/
def mkLocation (pf : String → Option ℝ) (lat lon : Option String) :
    Option (Option ℝ × Option ℝ) :=
  if jsTruthyStr lat && jsTruthyStr lon then
    some (pf (lat.getD ""), pf (lon.getD ""))
  else none

/-! ### Search Orchestrator (`handler`, lines 157–242) -/

/-- The `spaceTypeMapping` literal (lines 180–184). -/
def spaceTypeMapping : ParkingType → Int
  | .Car => 1
  | .Scooter => 2
  | .Heavy => 5

/-- The `availableSpaceTypes` threshold literal (lines 186–191). -/
def availableSpaceTypes : ParkingAvailability → Int
  | .Any => 0
  | .Few => 3
  | .Many => 5
  | .Available => 1

/-- The `.filter` predicate (lines 195–201): some availability entry has
the resolved space type and at least the resolved threshold of available
spaces. -/
def passesFilter (params : ParsedQuery) (lot : AvailLot) : Bool :=
  lot.Availabilities.any fun avail =>
    avail.SpaceType == spaceTypeMapping params.parkingType &&
      decide (availableSpaceTypes params.availability ≤ avail.AvailableSpaces)

/-- One item of the response payload. -/
structure ResultItem where
  name_zh : String
  name_en : String
  totalSpaces : Int
  availableSpaces : Int
  location : ℝ × ℝ
  address : String
  telephone : String
  imageURL : String
  description : String
  distance : Option ℝ

/-- The `.map` step (lines 202–220): join a surviving lot with its
metadata entry, substituting empty strings and the zero coordinate when the
entry is absent, and computing the distance when a user coordinate was
supplied. -/
noncomputable def mapLot (params : ParsedQuery) (meta : List (String × MetaEntry))
    (lot : AvailLot) : ResultItem :=
  let carPark := getMockCarParkData meta params.city lot.CarParkID
  let available :=
    lot.Availabilities.find? fun a => a.SpaceType == spaceTypeMapping params.parkingType
  { name_zh := lot.name_zh
    name_en := lot.name_en
    totalSpaces := match available with | some a => a.NumberOfSpaces | none => 0
    availableSpaces := match available with | some a => a.AvailableSpaces | none => 0
    location := match carPark with | some e => e.location | none => (0, 0)
    address := match carPark with | some e => e.address | none => ""
    telephone := match carPark with | some e => e.telephone | none => ""
    imageURL := match carPark with | some e => e.imageURL.getD "" | none => ""
    description := match carPark with | some e => e.description | none => ""
    distance := params.location.map fun c =>
      calculateDistance c.1 c.2
        (match carPark with | some e => e.location.1 | none => 0)
        (match carPark with | some e => e.location.2 | none => 0) }

/-- The `.sort` comparator (lines 221–227) read as a `≤` relation
(`cmp(a,b) ≤ 0`): distance ascending when a user coordinate was supplied
and both items carry a distance, otherwise available spaces descending. -/
def resultLe (loc : Option (ℝ × ℝ)) (a b : ResultItem) : Prop :=
  match loc, a.distance, b.distance with
  | some _, some da, some db => da - db ≤ 0
  | _, _, _ => b.availableSpaces - a.availableSpaces ≤ 0

noncomputable instance (loc : Option (ℝ × ℝ)) : DecidableRel (resultLe loc) :=
  fun _ _ => Classical.propDecidable _

/-- The full `_.chain(data).filter(..).map(..).sort(..)` pipeline
(lines 194–228); JS `Array.prototype.sort` with a consistent comparator is
modelled as the stable insertion sort. -/
noncomputable def searchResults (params : ParsedQuery) (meta : List (String × MetaEntry))
    (data : List AvailLot) : List ResultItem :=
  List.insertionSort (resultLe params.location)
    ((data.filter (passesFilter params)).map (mapLot params meta))

/-- The raw query of an inbound request (each parameter
`string | undefined`). -/
structure RawRequest where
  method : String
  city : Option String
  parkingType : Option String
  availability : Option String
  latitude : Option String
  longitude : Option String

/-- The external world one request can observe: the request time, the
`parseFloat` behaviour, and the responses the network would deliver. -/
structure Env where
  now : Int
  parseFloatFn : String → Option ℝ
  tokenResps : List TokenResponse
  availResp : Option (List AvailLot)
  metaResp : Option (Option (List RawCarPark))

/-- The HTTP response envelope of the route. -/
inductive ApiResponse where
  | methodNotAllowed
  | ok (data : List ResultItem)
  | badRequest (error : String)

/-- Whether a response is the HTTP 400 error envelope. -/
def ApiResponse.isBadRequest : ApiResponse → Bool
  | .badRequest _ => true
  | _ => false

/-- The API route `handler` (lines 157–242). Note the source order: the
availability snapshot is obtained (line 167) with the raw `city` query
value before `ParkingSearchSchema.parse` runs (line 169); metadata loading
(line 193) and the pipeline run only after a successful parse; every throw
is caught and surfaces as `badRequest`. -/
noncomputable def handler (st : ServerState) (env : Env) (req : RawRequest) :
    ApiResponse × ServerState :=
  if req.method ≠ "GET" then (.methodNotAllowed, st)
  else
    match getAvailableCarParks st env.now env.tokenResps env.availResp req.city with
    | (.error e, st1, _, _) => (.badRequest e, st1)
    | (.ok data, st1, q1, _) =>
      match parseQuery req.city req.parkingType req.availability
          (mkLocation env.parseFloatFn req.latitude req.longitude) with
      | .error e => (.badRequest e, st1)
      | .ok params =>
        match loadMockCarParkData st1 env.now q1 env.metaResp params.city with
        | (.error e, st2, _) => (.badRequest e, st2)
        | (.ok _, st2, _) => (.ok (searchResults params st2.carParkData data), st2)

/-! ### General sorting lemmas

`List.sorted_insertionSort` needs the relation to be total and transitive
on the whole type; the source comparator is only total and transitive on
the items that actually occur (all of them carry a distance, or none
does), so we prove a relativised version. -/

theorem sorted_orderedInsert_on {α : Type} {r : α → α → Prop} [DecidableRel r] {P : α → Prop}
    (total : ∀ a b, P a → P b → r a b ∨ r b a)
    (trans : ∀ a b c, P a → P b → P c → r a b → r b c → r a c)
    {x : α} (hx : P x) {l : List α} (hl : ∀ y ∈ l, P y) (hs : l.Sorted r) :
    (List.orderedInsert r x l).Sorted r := by
  induction l with
  | nil => exact List.sorted_singleton x
  | cons b l ih =>
    rw [List.orderedInsert]
    by_cases h : r x b
    · rw [if_pos h, List.sorted_cons]
      refine ⟨fun z hz => ?_, hs⟩
      rcases List.mem_cons.1 hz with rfl | hz'
      · exact h
      · exact trans x b z hx (hl b (List.mem_cons_self b l)) (hl z (List.mem_cons_of_mem b hz'))
          h (List.rel_of_sorted_cons hs z hz')
    · rw [if_neg h, List.sorted_cons]
      refine ⟨fun z hz => ?_,
        ih (fun y hy => hl y (List.mem_cons_of_mem b hy)) hs.of_cons⟩
      rcases (List.mem_orderedInsert r).1 hz with rfl | hz'
      · exact (total b z (hl b (List.mem_cons_self b l)) hx).resolve_right h
      · exact List.rel_of_sorted_cons hs z hz'

theorem sorted_insertionSort_on {α : Type} {r : α → α → Prop} [DecidableRel r] {P : α → Prop}
    (total : ∀ a b, P a → P b → r a b ∨ r b a)
    (trans : ∀ a b c, P a → P b → P c → r a b → r b c → r a c)
    {l : List α} (hl : ∀ y ∈ l, P y) : (List.insertionSort r l).Sorted r := by
  induction l with
  | nil => exact List.sorted_nil
  | cons x l ih =>
    rw [List.insertionSort]
    exact sorted_orderedInsert_on total trans (hl x (List.mem_cons_self x l))
      (fun y hy => hl y (List.mem_cons_of_mem x ((List.mem_insertionSort r).1 hy)))
      (ih fun y hy => hl y (List.mem_cons_of_mem x hy))

/-! ### Facts about the comparator and the mapped items -/

theorem resultLe_none_iff (a b : ResultItem) :
    resultLe none a b ↔ b.availableSpaces ≤ a.availableSpaces := by
  simp only [resultLe, sub_nonpos]

theorem resultLe_some_iff (c : ℝ × ℝ) (a b : ResultItem) (da db : ℝ)
    (hda : a.distance = some da) (hdb : b.distance = some db) :
    resultLe (some c) a b ↔ da ≤ db := by
  simp only [resultLe, hda, hdb, sub_nonpos]

theorem mapLot_distance (params : ParsedQuery) (meta : List (String × MetaEntry))
    (lot : AvailLot) :
    (mapLot params meta lot).distance = params.location.map (fun c =>
      calculateDistance c.1 c.2
        (match getMockCarParkData meta params.city lot.CarParkID with
          | some e => e.location.1 | none => 0)
        (match getMockCarParkData meta params.city lot.CarParkID with
          | some e => e.location.2 | none => 0)) := rfl

theorem searchResults_mem {params : ParsedQuery} {meta : List (String × MetaEntry)}
    {data : List AvailLot} {i : ResultItem} (h : i ∈ searchResults params meta data) :
    ∃ lot ∈ data, passesFilter params lot = true ∧ i = mapLot params meta lot := by
  unfold searchResults at h
  rw [List.mem_insertionSort] at h
  obtain ⟨lot, hlot, rfl⟩ := List.mem_map.1 h
  rw [List.mem_filter] at hlot
  exact ⟨lot, hlot.1, hlot.2, rfl⟩

theorem searchResults_distance_some {params : ParsedQuery} (meta : List (String × MetaEntry))
    (data : List AvailLot) (c : ℝ × ℝ) (hloc : params.location = some c) :
    ∀ i ∈ searchResults params meta data, (i.distance).isSome := by
  intro i hi
  obtain ⟨lot, _, _, rfl⟩ := searchResults_mem hi
  rw [mapLot_distance, hloc]
  rfl

theorem searchResults_distance_none {params : ParsedQuery} (meta : List (String × MetaEntry))
    (data : List AvailLot) (hloc : params.location = none) :
    ∀ i ∈ searchResults params meta data, i.distance = none := by
  intro i hi
  obtain ⟨lot, _, _, rfl⟩ := searchResults_mem hi
  rw [mapLot_distance, hloc]
  rfl

theorem searchResults_sorted_dist {params : ParsedQuery} (meta : List (String × MetaEntry))
    (data : List AvailLot) (c : ℝ × ℝ) (hloc : params.location = some c) :
    (searchResults params meta data).Sorted
      (fun a b => a.distance.getD 0 ≤ b.distance.getD 0) := by
  have hmem : ∀ i ∈ (data.filter (passesFilter params)).map (mapLot params meta),
      (i.distance).isSome := by
    intro i hi
    obtain ⟨lot, _, rfl⟩ := List.mem_map.1 hi
    rw [mapLot_distance, hloc]
    rfl
  have hsorted : (searchResults params meta data).Sorted (resultLe params.location) := by
    unfold searchResults
    refine sorted_insertionSort_on (P := fun i : ResultItem => (i.distance).isSome)
      ?_ ?_ hmem
    · intro a b ha hb
      obtain ⟨da, hda⟩ := Option.isSome_iff_exists.1 ha
      obtain ⟨db, hdb⟩ := Option.isSome_iff_exists.1 hb
      rw [hloc, resultLe_some_iff c a b da db hda hdb, resultLe_some_iff c b a db da hdb hda]
      exact le_total da db
    · intro a b d ha hb hd
      obtain ⟨da, hda⟩ := Option.isSome_iff_exists.1 ha
      obtain ⟨db, hdb⟩ := Option.isSome_iff_exists.1 hb
      obtain ⟨dd, hdd⟩ := Option.isSome_iff_exists.1 hd
      rw [hloc, resultLe_some_iff c a b da db hda hdb, resultLe_some_iff c b d db dd hdb hdd,
        resultLe_some_iff c a d da dd hda hdd]
      exact le_trans
  refine hsorted.imp_of_mem ?_
  intro a b ha hb hr
  have ha' := searchResults_distance_some meta data c hloc a ha
  have hb' := searchResults_distance_some meta data c hloc b hb
  obtain ⟨da, hda⟩ := Option.isSome_iff_exists.1 ha'
  obtain ⟨db, hdb⟩ := Option.isSome_iff_exists.1 hb'
  rw [hloc] at hr
  rw [resultLe_some_iff c a b da db hda hdb] at hr
  rw [hda, hdb]
  exact hr

theorem searchResults_sorted_avail {params : ParsedQuery} (meta : List (String × MetaEntry))
    (data : List AvailLot) (hloc : params.location = none) :
    (searchResults params meta data).Sorted
      (fun a b : ResultItem => b.availableSpaces ≤ a.availableSpaces) := by
  have hsorted : (searchResults params meta data).Sorted (resultLe params.location) := by
    unfold searchResults
    refine sorted_insertionSort_on (P := fun _ : ResultItem => True) ?_ ?_ (fun _ _ => trivial)
    · intro a b _ _
      rw [hloc, resultLe_none_iff, resultLe_none_iff]
      exact le_total _ _
    · intro a b d _ _ _
      rw [hloc, resultLe_none_iff, resultLe_none_iff, resultLe_none_iff]
      exact fun h1 h2 => le_trans h2 h1
  refine hsorted.imp ?_
  intro a b hr
  rw [hloc, resultLe_none_iff] at hr
  exact hr

/-! ### Frame lemmas: which parts of the state each component leaves alone -/

theorem getAccessToken_frame (st : ServerState) (now : Int) (q : List TokenResponse) :
    (getAccessToken st now q).2.1.loadedCities = st.loadedCities ∧
    (getAccessToken st now q).2.1.carParkData = st.carParkData ∧
    (getAccessToken st now q).2.1.carParkCache = st.carParkCache := by
  unfold getAccessToken
  split
  · exact ⟨rfl, rfl, rfl⟩
  · split
    · exact ⟨rfl, rfl, rfl⟩
    · split
      · exact ⟨rfl, rfl, rfl⟩
      · exact ⟨rfl, rfl, rfl⟩

theorem getAccessToken_error_state (st : ServerState) (now : Int) (q : List TokenResponse)
    (e : String) (st' : ServerState) (q' : List TokenResponse)
    (h : getAccessToken st now q = (.error e, st', q')) : st' = st := by
  unfold getAccessToken at h
  split at h
  · simp at h
  · split at h
    · rw [Prod.mk.injEq, Prod.mk.injEq] at h
      exact h.2.1.symm
    · split at h
      · rw [Prod.mk.injEq, Prod.mk.injEq] at h
        exact h.2.1.symm
      · simp at h

theorem getAvailableCarParksFetch_frame (st : ServerState) (now : Int)
    (q : List TokenResponse) (availResp : Option (List AvailLot)) (city : Option String) :
    (getAvailableCarParksFetch st now q availResp city).2.1.loadedCities = st.loadedCities ∧
    (getAvailableCarParksFetch st now q availResp city).2.1.carParkData = st.carParkData := by
  unfold getAvailableCarParksFetch
  obtain ⟨h1, h2, _⟩ := getAccessToken_frame st now q
  split
  all_goals rename_i heq
  · rw [heq] at h1 h2
    exact ⟨h1, h2⟩
  · split
    · rw [heq] at h1 h2
      exact ⟨h1, h2⟩
    · rw [heq] at h1 h2
      exact ⟨h1, h2⟩

theorem getAvailableCarParks_frame (st : ServerState) (now : Int)
    (q : List TokenResponse) (availResp : Option (List AvailLot)) (city : Option String) :
    (getAvailableCarParks st now q availResp city).2.1.loadedCities = st.loadedCities ∧
    (getAvailableCarParks st now q availResp city).2.1.carParkData = st.carParkData := by
  unfold getAvailableCarParks
  split
  · split
    · exact ⟨rfl, rfl⟩
    · exact getAvailableCarParksFetch_frame st now q availResp city
  · exact getAvailableCarParksFetch_frame st now q availResp city

/-! ### Inversion lemmas for the handler and the parser -/

theorem parseQuery_ok_location {cityQ parkingTypeQ availabilityQ : Option String}
    {locQ : Option (Option ℝ × Option ℝ)} {params : ParsedQuery}
    (h : parseQuery cityQ parkingTypeQ availabilityQ locQ = .ok params) :
    (params.location = none ↔ locQ = none) := by
  unfold parseQuery at h
  split at h
  · rename_i c p a l hc hp ha hl
    rw [Except.ok.injEq] at h
    subst h
    rcases locQ with _ | ⟨_ | la, _ | lo⟩ <;> simp [parseLocation] at hl
    · simp [← hl]
    · rw [← hl.2]
      simp
  · exact absurd h (by simp)

theorem handler_ok_inv {st : ServerState} {env : Env} {req : RawRequest}
    {l : List ResultItem} {stF : ServerState}
    (h : handler st env req = (.ok l, stF)) :
    ∃ params data st1 q1 f1 st2 q2,
      getAvailableCarParks st env.now env.tokenResps env.availResp req.city
        = (.ok data, st1, q1, f1) ∧
      parseQuery req.city req.parkingType req.availability
        (mkLocation env.parseFloatFn req.latitude req.longitude) = .ok params ∧
      loadMockCarParkData st1 env.now q1 env.metaResp params.city = (.ok (), st2, q2) ∧
      l = searchResults params st2.carParkData data ∧ stF = st2 := by
  unfold handler at h
  split at h
  · simp at h
  · split at h
    · simp at h
    · rename_i data st1 q1 f1 havail
      split at h
      · simp at h
      · rename_i params hparse
        split at h
        · simp at h
        · rename_i u st2 q2 hload
          rw [Prod.mk.injEq, ApiResponse.ok.injEq] at h
          exact ⟨params, data, st1, q1, f1, st2, q2, havail, hparse, hload,
            h.1.symm, h.2.symm⟩

theorem getAvailableCarParksFetch_ok_fetched {st : ServerState} {now : Int}
    {q : List TokenResponse} {availResp : Option (List AvailLot)} {city : Option String}
    {vs : List AvailLot} {st' : ServerState} {q' : List TokenResponse} {b : Bool}
    (h : getAvailableCarParksFetch st now q availResp city = (.ok vs, st', q', b)) :
    b = true := by
  unfold getAvailableCarParksFetch at h
  split at h
  · simp at h
  · split at h
    · simp at h
    · simp only [Prod.mk.injEq] at h
      exact h.2.2.2.symm

theorem haversineA_comm (lat1 lon1 lat2 lon2 : ℝ) :
    haversineA lat1 lon1 lat2 lon2 = haversineA lat2 lon2 lat1 lon1 := by
  unfold haversineA
  have h1 : (lat1 - lat2) * Real.pi / 180 / 2 = -((lat2 - lat1) * Real.pi / 180 / 2) := by
    ring
  have h2 : (lon1 - lon2) * Real.pi / 180 / 2 = -((lon2 - lon1) * Real.pi / 180 / 2) := by
    ring
  rw [h1, h2, Real.sin_neg, Real.sin_neg]
  ring

theorem haversineA_self (lat lon : ℝ) : haversineA lat lon lat lon = 0 := by
  unfold haversineA
  simp

/-! ### The claims -/

/-- Claim C9: the distance function is symmetric in its two coordinate
arguments, and the distance from a coordinate to itself is zero. -/
theorem c9_distance_symm_self :
    (∀ lat1 lon1 lat2 lon2 : ℝ,
      calculateDistance lat1 lon1 lat2 lon2 = calculateDistance lat2 lon2 lat1 lon1) ∧
    (∀ lat lon : ℝ, calculateDistance lat lon lat lon = 0) := by
  constructor
  · intro lat1 lon1 lat2 lon2
    unfold calculateDistance
    rw [haversineA_comm]
  · intro lat lon
    unfold calculateDistance
    rw [haversineA_self]
    norm_num [atan2, Real.sqrt_zero, Real.sqrt_one, Real.arctan_zero]

/-- Claim C2: a lot of the availability snapshot survives the filter (and
hence appears, up to the final permutation by sorting, in the result)
exactly when some availability entry has the space-type code resolved for
the requested parking type and at least the threshold resolved for the
requested availability tier; the resolved codes are Car→1, Scooter→2,
Heavy→5 and the thresholds Any→0, Available→1, Many→5, Few→3. -/
theorem c2_filter_semantics (params : ParsedQuery) (meta : List (String × MetaEntry))
    (data : List AvailLot) (lot : AvailLot) :
    (passesFilter params lot = true ↔
      ∃ a ∈ lot.Availabilities,
        a.SpaceType = spaceTypeMapping params.parkingType ∧
        availableSpaceTypes params.availability ≤ a.AvailableSpaces) ∧
    List.Perm (searchResults params meta data)
      ((data.filter (passesFilter params)).map (mapLot params meta)) ∧
    spaceTypeMapping .Car = 1 ∧ spaceTypeMapping .Scooter = 2 ∧
    spaceTypeMapping .Heavy = 5 ∧ availableSpaceTypes .Any = 0 ∧
    availableSpaceTypes .Available = 1 ∧ availableSpaceTypes .Many = 5 ∧
    availableSpaceTypes .Few = 3 := by
  refine ⟨?_, ?_, rfl, rfl, rfl, rfl, rfl, rfl, rfl⟩
  · simp [passesFilter, List.any_eq_true, Bool.and_eq_true, beq_iff_eq,
      decide_eq_true_eq]
  · exact List.perm_insertionSort _ _

/-- Claim C7: a lot that survives the filter but has no metadata cache
entry still appears in the result, with empty address, telephone and
imageURL, coordinate (0,0), and (when a user coordinate was supplied) the
distance computed to (0,0). -/
theorem c7_absent_metadata (params : ParsedQuery) (meta : List (String × MetaEntry))
    (lot : AvailLot) (h : getMockCarParkData meta params.city lot.CarParkID = none) :
    (mapLot params meta lot).address = "" ∧
    (mapLot params meta lot).telephone = "" ∧
    (mapLot params meta lot).imageURL = "" ∧
    (mapLot params meta lot).location = (0, 0) ∧
    (mapLot params meta lot).distance
      = params.location.map (fun c => calculateDistance c.1 c.2 0 0) ∧
    ∀ data, lot ∈ data → passesFilter params lot = true →
      mapLot params meta lot ∈ searchResults params meta data := by
  refine ⟨?_, ?_, ?_, ?_, ?_, ?_⟩
  · simp [mapLot, h]
  · simp [mapLot, h]
  · simp [mapLot, h]
  · simp [mapLot, h]
  · simp [mapLot, h]
  · intro data hmem hpass
    unfold searchResults
    rw [List.mem_insertionSort]
    exact List.mem_map_of_mem _ (List.mem_filter.2 ⟨hmem, hpass⟩)

/-- Claim C7 witness: a concrete lot with no metadata entry. -/
theorem c7_absent_metadata_witness :
    (mapLot ⟨.Taipei, .Car, .Available, none⟩ [] ⟨"X", "x", "e", [⟨1, 2, 2⟩]⟩).address = "" ∧
    (mapLot ⟨.Taipei, .Car, .Available, none⟩ [] ⟨"X", "x", "e", [⟨1, 2, 2⟩]⟩).telephone = "" ∧
    (mapLot ⟨.Taipei, .Car, .Available, none⟩ [] ⟨"X", "x", "e", [⟨1, 2, 2⟩]⟩).imageURL = "" ∧
    (mapLot ⟨.Taipei, .Car, .Available, none⟩ [] ⟨"X", "x", "e", [⟨1, 2, 2⟩]⟩).location = (0, 0) ∧
    (mapLot ⟨.Taipei, .Car, .Available, none⟩ [] ⟨"X", "x", "e", [⟨1, 2, 2⟩]⟩).distance
      = (none : Option (ℝ × ℝ)).map (fun c => calculateDistance c.1 c.2 0 0) ∧
    ∀ data, (⟨"X", "x", "e", [⟨1, 2, 2⟩]⟩ : AvailLot) ∈ data →
      passesFilter ⟨.Taipei, .Car, .Available, none⟩ ⟨"X", "x", "e", [⟨1, 2, 2⟩]⟩ = true →
      mapLot ⟨.Taipei, .Car, .Available, none⟩ [] ⟨"X", "x", "e", [⟨1, 2, 2⟩]⟩
        ∈ searchResults ⟨.Taipei, .Car, .Available, none⟩ [] data :=
  c7_absent_metadata ⟨.Taipei, .Car, .Available, none⟩ [] ⟨"X", "x", "e", [⟨1, 2, 2⟩]⟩ rfl

/-- Claim C4: a fresh cached snapshot is served unchanged with no fetch
and no state change; a missing or stale snapshot leads to a fetch that
replaces the whole per-city entry with expiry `now + 60000` ms and returns
the new list; and a response served from the cache always comes from a
snapshot with `now < expiredAt` — a stale snapshot is never served. -/
theorem c4_availability_cache (st : ServerState) (now : Int) (q : List TokenResponse)
    (availResp : Option (List AvailLot)) (city : Option String) :
    (∀ snap, assocGet st.carParkCache city = some snap → now < snap.expiredAt →
      getAvailableCarParks st now q availResp city = (.ok snap.values, st, q, false)) ∧
    (∀ feed tok st1 q1,
      (∀ snap, assocGet st.carParkCache city = some snap → snap.expiredAt ≤ now) →
      getAccessToken st now q = (.ok tok, st1, q1) →
      availResp = some feed →
      getAvailableCarParks st now q availResp city =
        (.ok feed,
          { st1 with
            carParkCache :=
              assocSet st1.carParkCache city { expiredAt := now + 60000, values := feed } },
          q1, true)) ∧
    (∀ vs st' q', getAvailableCarParks st now q availResp city = (.ok vs, st', q', false) →
      ∃ snap, assocGet st.carParkCache city = some snap ∧ vs = snap.values ∧
        now < snap.expiredAt ∧ st' = st ∧ q' = q) := by
  refine ⟨?_, ?_, ?_⟩
  · intro snap hsnap hfresh
    unfold getAvailableCarParks
    simp only [hsnap]
    rw [if_pos hfresh]
  · intro feed tok st1 q1 hstale htok hfeed
    cases hsnap : assocGet st.carParkCache city with
    | some snap =>
      unfold getAvailableCarParks
      simp only [hsnap]
      rw [if_neg (not_lt.2 (hstale snap hsnap))]
      unfold getAvailableCarParksFetch
      simp only [htok, hfeed]
    | none =>
      unfold getAvailableCarParks
      simp only [hsnap]
      unfold getAvailableCarParksFetch
      simp only [htok, hfeed]
  · intro vs st' q' h
    unfold getAvailableCarParks at h
    cases hsnap : assocGet st.carParkCache city with
    | some snap =>
      simp only [hsnap] at h
      by_cases hfresh : now < snap.expiredAt
      · rw [if_pos hfresh] at h
        simp only [Prod.mk.injEq, Except.ok.injEq] at h
        exact ⟨snap, rfl, h.1.symm, hfresh, h.2.1.symm, h.2.2.1.symm⟩
      · rw [if_neg hfresh] at h
        exact absurd (getAvailableCarParksFetch_ok_fetched h) (by simp)
    | none =>
      simp only [hsnap] at h
      exact absurd (getAvailableCarParksFetch_ok_fetched h) (by simp)

/-- Claim C4 witness: a fresh cached snapshot for a concrete city is
served unchanged without a fetch. -/
theorem c4_availability_cache_witness :
    getAvailableCarParks
      { expiredAt := 0, accessToken := none, loadedCities := [], carParkData := [],
        carParkCache := [(some "Taipei", { expiredAt := 100, values := [] })] }
      0 [] none (some "Taipei") =
      (.ok ([] : List AvailLot),
        { expiredAt := 0, accessToken := none, loadedCities := [], carParkData := [],
          carParkCache := [(some "Taipei", { expiredAt := 100, values := [] })] },
        [], false) :=
  (c4_availability_cache
    { expiredAt := 0, accessToken := none, loadedCities := [], carParkData := [],
      carParkCache := [(some "Taipei", { expiredAt := 100, values := [] })] }
    0 [] none (some "Taipei")).1 { expiredAt := 100, values := [] } rfl (by decide)

/-- Claim C5: a cached, unexpired token is returned unchanged without a
credential exchange; a renewal consumes exactly one exchange, stores
`expiresAt = now + expires_in·1000 − 60000` ms and returns the new token;
a second call within the renewed validity window performs no further
exchange; and a response without a token makes the call throw. -/
theorem c5_token_lifecycle (st : ServerState) (now : Int) (q : List TokenResponse) :
    (∀ t, st.accessToken = some t → t ≠ "" → now < st.expiredAt →
      getAccessToken st now q = (.ok t, st, q)) ∧
    (∀ r rest, ¬(jsTruthyStr st.accessToken = true ∧ now < st.expiredAt) →
      q = r :: rest → r.access_token ≠ "" →
      getAccessToken st now q =
        (.ok r.access_token,
          { st with
            expiredAt := now + r.expires_in * 1000 - 60000,
            accessToken := some r.access_token }, rest)) ∧
    (∀ (r : TokenResponse) (now2 : Int) (q2 : List TokenResponse), r.access_token ≠ "" →
      now2 < now + r.expires_in * 1000 - 60000 →
      getAccessToken
        { st with
          expiredAt := now + r.expires_in * 1000 - 60000,
          accessToken := some r.access_token } now2 q2 =
        (.ok r.access_token,
          { st with
            expiredAt := now + r.expires_in * 1000 - 60000,
            accessToken := some r.access_token }, q2)) ∧
    (∀ r rest, ¬(jsTruthyStr st.accessToken = true ∧ now < st.expiredAt) →
      q = r :: rest → r.access_token = "" →
      getAccessToken st now q = (.error "Failed to get access token from TDX", st, rest)) := by
  refine ⟨?_, ?_, ?_, ?_⟩
  · intro t ht htne hlt
    have hcond : jsTruthyStr st.accessToken = true ∧ now < st.expiredAt := by
      refine ⟨?_, hlt⟩
      rw [ht]
      simp [jsTruthyStr, htne]
    unfold getAccessToken
    rw [if_pos hcond, ht]
    rfl
  · intro r rest hmiss hq hne
    unfold getAccessToken
    rw [if_neg hmiss, hq]
    simp [hne]
  · intro r now2 q2 hne hlt
    have hcond : jsTruthyStr (some r.access_token) = true ∧
        now2 < now + r.expires_in * 1000 - 60000 := by
      refine ⟨?_, hlt⟩
      simp [jsTruthyStr, hne]
    unfold getAccessToken
    rw [if_pos hcond]
    rfl
  · intro r rest hmiss hq he
    unfold getAccessToken
    rw [if_neg hmiss, hq]
    simp [he]

/-- Claim C5 witness: a concrete cached token is served unchanged, and a
concrete renewal stores the shifted expiry. -/
theorem c5_token_lifecycle_witness :
    getAccessToken
      { expiredAt := 100, accessToken := some "tok", loadedCities := [], carParkData := [],
        carParkCache := [] } 0 [] =
      (.ok "tok",
        { expiredAt := 100, accessToken := some "tok", loadedCities := [], carParkData := [],
          carParkCache := [] }, []) ∧
    getAccessToken
      { expiredAt := 0, accessToken := none, loadedCities := [], carParkData := [],
        carParkCache := [] } 0 [⟨"fresh", 3600⟩] =
      (.ok "fresh",
        { expiredAt := 0 + 3600 * 1000 - 60000, accessToken := some "fresh",
          loadedCities := [], carParkData := [], carParkCache := [] }, []) :=
  ⟨(c5_token_lifecycle
      { expiredAt := 100, accessToken := some "tok", loadedCities := [], carParkData := [],
        carParkCache := [] } 0 []).1 "tok" rfl (by decide) (by decide),
    (c5_token_lifecycle
      { expiredAt := 0, accessToken := none, loadedCities := [], carParkData := [],
        carParkCache := [] } 0 [⟨"fresh", 3600⟩]).2.1 ⟨"fresh", 3600⟩ [] (by decide) rfl
      (by decide)⟩

/-- Fixture: the empty server state. -/
def c1St : ServerState :=
  { expiredAt := 0, accessToken := none, loadedCities := [], carParkData := [],
    carParkCache := [] }

/-- Fixture: an environment whose availability feed holds one lot. -/
def c1Env : Env :=
  { now := 0, parseFloatFn := fun _ => none, tokenResps := [⟨"tok", 3600⟩],
    availResp := some [⟨"L1", "甲", "A", [⟨1, 10, 10⟩]⟩], metaResp := some (some []) }

/-- Fixture: a GET request with the unsupported city `Mars`. -/
def c1Req : RawRequest :=
  { method := "GET", city := some "Mars", parkingType := none, availability := none,
    latitude := none, longitude := none }

/-- Claim C1 counterexample: a request with the unsupported city `Mars` is
rejected with a validation error, but the availability fetch has already
happened and its result has been written to the cache under the raw city
key before validation — contradicting that no availability fetch and no
cache mutation occur for an invalid query. -/
theorem c1_validation_counterexample :
    (handler c1St c1Env c1Req).1.isBadRequest = true ∧
    (handler c1St c1Env c1Req).2.carParkCache =
      [(some "Mars", { expiredAt := 60000, values := [⟨"L1", "甲", "A", [⟨1, 10, 10⟩]⟩] })] ∧
    (handler c1St c1Env c1Req).2.accessToken = some "tok" ∧
    (handler c1St c1Env c1Req).2.loadedCities = [] :=
  ⟨rfl, rfl, rfl, rfl⟩

/-- Claim C1 (amended): an invalid query is rejected with a validation
error and causes no metadata load and no metadata-cache mutation, and no
result list is returned; however the availability fetch and its cache
write happen before validation, keyed by the raw city parameter. -/
theorem c1_validation_amended (st : ServerState) (env : Env) (req : RawRequest) (e : String)
    (hm : req.method = "GET")
    (hp : parseQuery req.city req.parkingType req.availability
      (mkLocation env.parseFloatFn req.latitude req.longitude) = .error e) :
    (handler st env req).1.isBadRequest = true ∧
    (handler st env req).2.loadedCities = st.loadedCities ∧
    (handler st env req).2.carParkData = st.carParkData := by
  obtain ⟨hL, hD⟩ := getAvailableCarParks_frame st env.now env.tokenResps env.availResp req.city
  unfold handler
  rw [hm]
  rw [if_neg (by simp)]
  rcases hG : getAvailableCarParks st env.now env.tokenResps env.availResp req.city
    with ⟨exc, st1, q1, f1⟩
  rw [hG] at hL hD
  cases exc with
  | error e2 => exact ⟨rfl, hL, hD⟩
  | ok data =>
    simp only [hp]
    exact ⟨rfl, hL, hD⟩

/-- Claim C1 witness: the amended statement at the concrete `Mars`
request. -/
theorem c1_validation_amended_witness :
    (handler c1St c1Env c1Req).1.isBadRequest = true ∧
    (handler c1St c1Env c1Req).2.loadedCities = c1St.loadedCities ∧
    (handler c1St c1Env c1Req).2.carParkData = c1St.carParkData :=
  c1_validation_amended c1St c1Env c1Req "ValidationError" rfl rfl

/-- Fixture: a metadata feed whose second record lacks `CarParkName`, so
population throws after the first record was stored. -/
def c6Items : List RawCarPark :=
  [⟨"A", some ("甲", "A"), none, none, none, some (0, 0), none, none⟩,
    ⟨"B", none, none, none, none, none, none, none⟩]

/-- Claim C6 counterexample: when population fails partway (the second
record is malformed), the call throws, yet the city is already in the
loaded set and the cache holds only the records processed before the
failure — contradicting that a partial failure leaves the city out of the
loaded set. -/
theorem c6_loader_counterexample :
    (loadMockCarParkData
      { expiredAt := 0, accessToken := none, loadedCities := [], carParkData := [],
        carParkCache := [] } 0 [⟨"tok", 3600⟩] (some (some c6Items)) City.Taipei).1.isOk
      = false ∧
    (loadMockCarParkData
      { expiredAt := 0, accessToken := none, loadedCities := [], carParkData := [],
        carParkCache := [] } 0 [⟨"tok", 3600⟩] (some (some c6Items)) City.Taipei).2.1.loadedCities
      = [City.Taipei] ∧
    ((loadMockCarParkData
      { expiredAt := 0, accessToken := none, loadedCities := [], carParkData := [],
        carParkCache := [] } 0 [⟨"tok", 3600⟩] (some (some c6Items)) City.Taipei).2.1.carParkData.map
        Prod.fst)
      = ["Taipei-A"] :=
  ⟨rfl, rfl, rfl⟩

/-- Claim C6 (amended): the loader marks a city as loaded once the
metadata response body has been obtained — before populating the cache —
so a token or fetch failure leaves the city unmarked and eligible for
retry, while any obtained body (even one whose population fails) marks the
city loaded. -/
theorem c6_loader_marking (st : ServerState) (now : Int) (q : List TokenResponse)
    (metaResp : Option (Option (List RawCarPark))) (city : City) :
    (∀ e st1 q1, getAccessToken st now q = (.error e, st1, q1) → city ∉ st.loadedCities →
      loadMockCarParkData st now q metaResp city = (.error e, st1, q1) ∧
      st1.loadedCities = st.loadedCities) ∧
    (∀ tok st1 q1, getAccessToken st now q = (.ok tok, st1, q1) → city ∉ st.loadedCities →
      metaResp = none →
      loadMockCarParkData st now q metaResp city = (.error "fetch failed", st1, q1) ∧
      st1.loadedCities = st.loadedCities) ∧
    (∀ x tok st1 q1, metaResp = some x → getAccessToken st now q = (.ok tok, st1, q1) →
      city ∈ (loadMockCarParkData st now q metaResp city).2.1.loadedCities) := by
  refine ⟨?_, ?_, ?_⟩
  · intro e st1 q1 htok hnot
    have hfr := (getAccessToken_frame st now q).1
    rw [htok] at hfr
    refine ⟨?_, hfr⟩
    unfold loadMockCarParkData
    rw [if_neg hnot]
    simp only [htok]
  · intro tok st1 q1 htok hnot hm
    have hfr := (getAccessToken_frame st now q).1
    rw [htok] at hfr
    refine ⟨?_, hfr⟩
    unfold loadMockCarParkData
    rw [if_neg hnot]
    simp only [htok, hm]
  · intro x tok st1 q1 hm htok
    unfold loadMockCarParkData
    by_cases hc : city ∈ st.loadedCities
    · rw [if_pos hc]
      exact hc
    · rw [if_neg hc]
      simp only [htok, hm]
      cases x with
      | none => exact List.mem_cons_self _ _
      | some items =>
        cases hp : populateCarParks city items st1.carParkData with
        | mk d b =>
          cases b with
          | false =>
            simp only [hp]
            exact List.mem_cons_self _ _
          | true =>
            simp only [hp]
            exact List.mem_cons_self _ _

/-- Fixture: the empty server state for the loader claims. -/
def c6St : ServerState :=
  { expiredAt := 0, accessToken := none, loadedCities := [], carParkData := [],
    carParkCache := [] }

/-- Claim C6 witness: a failed token exchange leaves a concrete city
unmarked and the state unchanged. -/
theorem c6_loader_marking_witness :
    (loadMockCarParkData c6St 0 [] none City.Taipei = (.error "fetch failed", c6St, []) ∧
      c6St.loadedCities = c6St.loadedCities) :=
  (c6_loader_marking c6St 0 [] none City.Taipei).1 "fetch failed" c6St [] rfl (by decide)

/-- Fixture: a raw metadata record with no phone, description or image. -/
def c8Raw : RawCarPark :=
  ⟨"X", some ("甲", "A"), none, none, none, some (0, 0), none, none⟩

/-- Claim C8 counterexample: for a record with no `ImageURLs`, the stored
cache entry has `imageURL` absent (`undefined`), not the empty string —
while phone and description are indeed stored as the empty string. -/
theorem c8_defaults_counterexample :
    ((loadMockCarParkData
      { expiredAt := 0, accessToken := none, loadedCities := [], carParkData := [],
        carParkCache := [] } 0 [⟨"tok", 3600⟩] (some (some [c8Raw])) City.Taipei).2.1.carParkData.map
        (fun p => (p.1, p.2.imageURL, p.2.telephone, p.2.description)))
      = [("Taipei-X", none, "", "")] ∧
    ((loadMockCarParkData
      { expiredAt := 0, accessToken := none, loadedCities := [], carParkData := [],
        carParkCache := [] } 0 [⟨"tok", 3600⟩] (some (some [c8Raw])) City.Taipei).2.1.carParkData.map
        (fun p => p.2.imageURL))
      ≠ [some ""] :=
  ⟨rfl, by decide⟩

/-- Claim C8 (amended): a missing phone and a missing description are
stored as the empty string, but a missing image is stored as an absent
(`undefined`) value — the empty-string substitution for the image happens
only when the search result item is built. -/
theorem c8_defaults_amended (cp : RawCarPark) (nm : String × String) (pos : ℝ × ℝ) :
    (cp.Telephone = none → cp.EmergencyPhone = none → (mkMetaEntry cp nm pos).telephone = "") ∧
    (cp.Description = none → (mkMetaEntry cp nm pos).description = "") ∧
    (cp.ImageURLs = none → (mkMetaEntry cp nm pos).imageURL = none) ∧
    (∀ (city : City) (rest : List RawCarPark) (acc : List (String × MetaEntry)),
      cp.CarParkName = some nm → cp.CarParkPosition = some pos →
      populateCarParks city (cp :: rest) acc =
        populateCarParks city rest
          (assocSet acc (City.toKey city ++ "-" ++ cp.CarParkID) (mkMetaEntry cp nm pos))) := by
  refine ⟨?_, ?_, ?_, ?_⟩
  · intro h1 h2
    simp [mkMetaEntry, jsOrS, h1, h2]
  · intro h
    simp [mkMetaEntry, jsOrS, h]
  · intro h
    simp [mkMetaEntry, h]
  · intro city rest acc h1 h2
    conv_lhs => rw [populateCarParks]
    simp only [h1, h2]

/-- Claim C8 witness: the amended statement at a concrete record. -/
theorem c8_defaults_amended_witness :
    (mkMetaEntry c8Raw ("甲", "A") (0, 0)).telephone = "" ∧
    (mkMetaEntry c8Raw ("甲", "A") (0, 0)).description = "" ∧
    (mkMetaEntry c8Raw ("甲", "A") (0, 0)).imageURL = none ∧
    populateCarParks City.Taipei [c8Raw] [] =
      populateCarParks City.Taipei []
        (assocSet [] (City.toKey City.Taipei ++ "-" ++ c8Raw.CarParkID)
          (mkMetaEntry c8Raw ("甲", "A") (0, 0))) :=
  ⟨(c8_defaults_amended c8Raw ("甲", "A") (0, 0)).1 rfl rfl,
    (c8_defaults_amended c8Raw ("甲", "A") (0, 0)).2.1 rfl,
    (c8_defaults_amended c8Raw ("甲", "A") (0, 0)).2.2.1 rfl,
    (c8_defaults_amended c8Raw ("甲", "A") (0, 0)).2.2.2 City.Taipei [] [] rfl rfl⟩

/-- Fixture: the empty server state for the sorting claims. -/
def c3St : ServerState :=
  { expiredAt := 0, accessToken := none, loadedCities := [], carParkData := [],
    carParkCache := [] }

/-- Fixture: an environment with an empty availability feed. -/
def c3Env : Env :=
  { now := 0, parseFloatFn := fun _ => none, tokenResps := [⟨"tok", 3600⟩],
    availResp := some [], metaResp := some (some []) }

/-- Fixture: a valid GET request for Taipei with no user coordinate. -/
def c3Req : RawRequest :=
  { method := "GET", city := some "Taipei", parkingType := none, availability := none,
    latitude := none, longitude := none }

/-- Fixture: the state after serving `c3Req` from `c3St` under `c3Env`. -/
def c3StF : ServerState :=
  { expiredAt := 3540000, accessToken := some "tok", loadedCities := [City.Taipei],
    carParkData := [], carParkCache := [(some "Taipei", ⟨60000, []⟩)] }

/-- Claim C3: in every successful response, if the query carried a user
coordinate the items are non-decreasing in the computed distance (and all
carry one), and if it did not they are non-increasing in available spaces
(and none carries a distance). -/
theorem c3_response_sorted (st : ServerState) (env : Env) (req : RawRequest)
    (l : List ResultItem) (stF : ServerState)
    (h : handler st env req = (.ok l, stF)) :
    (mkLocation env.parseFloatFn req.latitude req.longitude ≠ none →
      l.Sorted (fun a b => a.distance.getD 0 ≤ b.distance.getD 0) ∧
      ∀ i ∈ l, i.distance ≠ none) ∧
    (mkLocation env.parseFloatFn req.latitude req.longitude = none →
      l.Sorted (fun a b : ResultItem => b.availableSpaces ≤ a.availableSpaces) ∧
      ∀ i ∈ l, i.distance = none) := by
  obtain ⟨params, data, st1, q1, f1, st2, q2, hG, hP, hL, hl, hstF⟩ := handler_ok_inv h
  have hloc := parseQuery_ok_location hP
  subst hl
  constructor
  · intro hne
    have hpn : params.location ≠ none := fun hn => hne (hloc.1 hn)
    obtain ⟨c, hc⟩ := Option.ne_none_iff_exists'.1 hpn
    refine ⟨searchResults_sorted_dist _ _ c hc, fun i hi => ?_⟩
    exact Option.isSome_iff_ne_none.1 (searchResults_distance_some _ _ c hc i hi)
  · intro heq
    have hpn : params.location = none := hloc.2 heq
    exact ⟨searchResults_sorted_avail _ _ hpn, searchResults_distance_none _ _ hpn⟩

/-- Claim C3 witness: the statement at a concrete successful request. -/
theorem c3_response_sorted_witness :
    (mkLocation c3Env.parseFloatFn c3Req.latitude c3Req.longitude ≠ none →
      ([] : List ResultItem).Sorted (fun a b => a.distance.getD 0 ≤ b.distance.getD 0) ∧
      ∀ i ∈ ([] : List ResultItem), i.distance ≠ none) ∧
    (mkLocation c3Env.parseFloatFn c3Req.latitude c3Req.longitude = none →
      ([] : List ResultItem).Sorted (fun a b : ResultItem => b.availableSpaces ≤ a.availableSpaces) ∧
      ∀ i ∈ ([] : List ResultItem), i.distance = none) :=
  c3_response_sorted c3St c3Env c3Req [] c3StF rfl

/-- Claim C10: a GET request supplying only one of latitude/longitude is
handled exactly like the same request with both omitted — the location is
dropped before validation, so no validation error arises from the missing
half, no item carries a distance, and a successful response is sorted by
available spaces descending. -/
theorem c10_single_coordinate (st : ServerState) (env : Env) (req : RawRequest)
    (h : req.latitude = none ∨ req.longitude = none) :
    handler st env req
      = handler st env { req with latitude := none, longitude := none } ∧
    mkLocation env.parseFloatFn req.latitude req.longitude = none ∧
    (∀ l stF, handler st env req = (.ok l, stF) →
      l.Sorted (fun a b : ResultItem => b.availableSpaces ≤ a.availableSpaces) ∧
      ∀ i ∈ l, i.distance = none) := by
  have hmk : mkLocation env.parseFloatFn req.latitude req.longitude = none := by
    unfold mkLocation
    rcases h with h | h <;> rw [h] <;> simp [jsTruthyStr]
  refine ⟨?_, hmk, ?_⟩
  · unfold handler
    have h2 : mkLocation env.parseFloatFn none none = none := rfl
    simp only [hmk, h2]
  · intro l stF hok
    obtain ⟨params, data, st1, q1, f1, st2, q2, hG, hP, hL, hl, hstF⟩ := handler_ok_inv hok
    have hpn : params.location = none := (parseQuery_ok_location hP).2 hmk
    subst hl
    exact ⟨searchResults_sorted_avail _ _ hpn, searchResults_distance_none _ _ hpn⟩

/-- Fixture: a GET request supplying a latitude but no longitude. -/
def c10Req : RawRequest :=
  { method := "GET", city := some "Taipei", parkingType := none, availability := none,
    latitude := some "25.04", longitude := none }

/-- Claim C10 witness: the statement at a concrete half-coordinate
request. -/
theorem c10_single_coordinate_witness :
    handler c3St c3Env c10Req
      = handler c3St c3Env { c10Req with latitude := none, longitude := none } ∧
    mkLocation c3Env.parseFloatFn c10Req.latitude c10Req.longitude = none ∧
    (∀ l stF, handler c3St c3Env c10Req = (.ok l, stF) →
      l.Sorted (fun a b : ResultItem => b.availableSpaces ≤ a.availableSpaces) ∧
      ∀ i ∈ l, i.distance = none) :=
  c10_single_coordinate c3St c3Env c10Req (Or.inr rfl)

end ParkingSearch
